import Mathlib

/-!
# Student chatbot front end (`templates/script.js`)

A shallow embedding of the page script: the values it reads from JSON bodies,
the part of the page it writes (banners, transcript, history pane, auth
indicator, form fields), the local-storage slot of the sender identifier, and
the event handlers, each as a function from the page before the event to the
page after it.

A statement that can throw returns an `Option`, with `none` for the throw;
the enclosing `try`/`catch`, or the rejection of the handler's promise where
there is none, is written out at each call.

Asynchronous handlers are run to quiescence: every `await` is followed
immediately by its continuation, which is what the single-threaded event loop
does when no other event arrives in between.
-/

namespace Chatbot

/-! ## JavaScript values -/

/-- A parsed JSON number, a double, seen through the only two things the
script ever does with one: convert it to a string (`text`: `"7"`, `"0.5"`,
`"1e+21"`) and test it for truth (`nonzero`, false for `0` and `-0`). The
script does no arithmetic on parsed values. -/
structure JNum where
  text : String
  nonzero : Bool
deriving DecidableEq

/-- Values the script handles: what `JSON.parse` yields (`null`, booleans,
numbers, strings, arrays, objects with their own properties) together with
`undefined`, the result of reading a property that is not there. -/
inductive JVal where
  | undefined : JVal
  | null : JVal
  | bool (b : Bool) : JVal
  | num (n : JNum) : JVal
  | str (s : String) : JVal
  | arr (xs : List JVal) : JVal
  | obj (kvs : List (String × JVal)) : JVal

namespace JVal

/-- ToBoolean: what `if (v)`, `!v`, `v || w` and `v && w` test. -/
def truthy : JVal → Bool
  | undefined => false
  | null => false
  | bool b => b
  | num n => n.nonzero
  | str s => s != ""
  | arr _ => true
  | obj _ => true

/-- Lookup of an own property in the key/value list of a parsed object. -/
def lookup (k : String) : List (String × JVal) → JVal
  | [] => undefined
  | (k', v) :: rest => if k' = k then v else lookup k rest

/-- Whether a parsed object has an own property `k`. -/
def hasKey (k : String) (kvs : List (String × JVal)) : Bool :=
  kvs.any fun kv => kv.1 = k

/-- The read `v.k` on a value that is neither `null` nor `undefined`, for the
property names the script uses (`error`, `details`, `text`, `logged_in`,
`role`, `user_id`, `id`, `started_at`): only objects carry them. -/
def prop (v : JVal) (k : String) : JVal :=
  match v with
  | obj kvs => lookup k kvs
  | _ => undefined

/-- The read `v.k` in general: a `TypeError` is thrown (`none`) when `v` is
`null` or `undefined`. -/
def get (v : JVal) (k : String) : Option JVal :=
  match v with
  | undefined => none
  | null => none
  | _ => some (v.prop k)

/-- The operator `a || b`. -/
def or (a b : JVal) : JVal := if a.truthy then a else b

/-- The operator `a && b` with `b` evaluated only when `a` is truthy. -/
def and (a : JVal) (b : Unit → JVal) : JVal := if a.truthy then b () else a

mutual
/-- String conversion, as done by template interpolation, by `v + aString`
and by `aString + v`; `none` when it throws a `TypeError`. A parsed object
converts through `Object.prototype.toString` unless it has an own property
`toString`, which is never callable and leaves no method that returns a
primitive. An array converts through `join`. -/
def toStr : JVal → Option String
  | undefined => some "undefined"
  | null => some "null"
  | bool b => some (if b then "true" else "false")
  | num n => some n.text
  | str s => some s
  | arr xs => joinStr xs
  | obj kvs => if hasKey "toString" kvs then none else some "[object Object]"
/-- The text `Array.prototype.join` gives with the separator `","`. -/
def joinStr : List JVal → Option String
  | [] => some ""
  | [x] => elemStr x
  | x :: y :: rest =>
    match elemStr x, joinStr (y :: rest) with
    | some a, some b => some (a ++ "," ++ b)
    | _, _ => none
/-- An array element inside `join`: `null` and `undefined` give the empty
text, anything else its string conversion. -/
def elemStr : JVal → Option String
  | undefined => some ""
  | null => some ""
  | bool b => some (if b then "true" else "false")
  | num n => some n.text
  | str s => some s
  | arr xs => joinStr xs
  | obj kvs => if hasKey "toString" kvs then none else some "[object Object]"
end

/-- The string a DOM `textContent` setter stores, `none` when the conversion
throws: the attribute is a nullable string, so `null` and `undefined` store
the empty string, and anything else is converted to a string. -/
def textContentOf : JVal → Option String
  | undefined => some ""
  | null => some ""
  | v => v.toStr

end JVal

/-! ## Strings -/

/-- Code points `String.prototype.trim` strips: the ECMAScript white-space
and line-terminator characters. -/
def isJsSpace (c : Char) : Bool :=
  c.val = 0x09 || c.val = 0x0A || c.val = 0x0B || c.val = 0x0C || c.val = 0x0D ||
  c.val = 0x20 || c.val = 0xA0 || c.val = 0x1680 ||
  (0x2000 ≤ c.val && c.val ≤ 0x200A) ||
  c.val = 0x2028 || c.val = 0x2029 || c.val = 0x202F || c.val = 0x205F ||
  c.val = 0x3000 || c.val = 0xFEFF

/-- The method `s.trim()`. -/
def jsTrim (s : String) : String :=
  String.mk ((s.data.dropWhile isJsSpace).reverse.dropWhile isJsSpace).reverse

/-! ## Sender identifier -/

/-- The source of randomness: the value of `Math.random() * 16 | 0` at the
k-th call, an integer from 0 to 15. -/
abbrev Random := Nat → Fin 16

/-- The pattern `uuidv4` fills in. -/
def uuidTemplate : String := "xxxxxxxx-xxxx-4xxx-yxxx-xxxxxxxxxxxx"

/-- The replacement callback of `uuidv4`: `v.toString(16)` for
`v = c === "x" ? r : (r & 0x3 | 0x8)`. -/
def uuidDigit (r : Fin 16) (c : Char) : List Char :=
  let v : Nat := if c = 'x' then r.val else (r.val &&& 0x3 ||| 0x8)
  Nat.toDigits 16 v

/-- The call `.replace(/[xy]/g, f)`: every `x` or `y`, left to right, is
replaced by the callback's result at the next random draw `k`; other
characters are copied. -/
def replaceXY (rand : Random) : List Char → Nat → List Char
  | [], _ => []
  | c :: cs, k =>
    if c = 'x' ∨ c = 'y' then uuidDigit (rand k) c ++ replaceXY rand cs (k + 1)
    else c :: replaceXY rand cs k

/-- The function `uuidv4`. -/
def uuidv4 (rand : Random) : String :=
  String.mk (replaceXY rand uuidTemplate.data 0)

/-- Lowercase hexadecimal digit. -/
def isLowerHex (c : Char) : Bool :=
  ('0' ≤ c && c ≤ '9') || ('a' ≤ c && c ≤ 'f')

/-- What the character at index `i` of a version-4 identifier must be. -/
def uuidCharOk (i : Nat) (c : Char) : Bool :=
  if i = 8 ∨ i = 13 ∨ i = 18 ∨ i = 23 then c = '-'
  else if i = 14 then c = '4'
  else if i = 19 then c = '8' || c = '9' || c = 'a' || c = 'b'
  else isLowerHex c

/-- The fixed shape of a generated identifier: 36 characters, hyphens at
indices 8, 13, 18 and 23, `4` at index 14, one of `8 9 a b` at index 19 and
lowercase hexadecimal digits elsewhere. -/
def UuidShape (s : String) : Prop :=
  s.data.length = 36 ∧ ∀ i c, s.data[i]? = some c → uuidCharOk i c = true

/-! ## The page -/

/-- A child of the transcript `#chat`: the `div` that `addMessage` creates. -/
structure Msg where
  className : String
  text : String
deriving DecidableEq

/-- A child of the history pane `#historyList`. -/
inductive HistNode where
  /-- The element `<div class="note">text</div>`. -/
  | note (text : String) : HistNode
  /-- The element `<div class="history-item">`; `markup` is the string the
  script assigns to its `innerHTML`, which the browser then parses. -/
  | item (markup : String) : HistNode
deriving DecidableEq

/-- A request handed to `fetch`. -/
structure Request where
  method : String
  url : String
  body : Option JVal

/-- Everything the script reads and writes: the variable `SENDER_ID`, the
local-storage slot `kpu_sender_id`, the elements it looks up by id, and the
log of the requests issued so far. -/
structure Page where
  senderId : Option String
  storage : Option String
  senderView : String
  chat : List Msg
  inputValue : String
  historyList : List HistNode
  tabLoginActive : Bool
  tabSignupActive : Bool
  loginPaneDisplay : String
  signupPaneDisplay : String
  okText : String
  okDisplay : String
  errText : String
  errDisplay : String
  apiDotClass : String
  apiText : String
  userText : String
  logoutDisplay : String
  loginEmail : String
  loginPassword : String
  signupName : String
  signupEmail : String
  signupPassword : String
  requests : List Request

/-- How a call of `fetch` ends. -/
inductive FetchResult where
  /-- The promise rejects: the backend cannot be reached. -/
  | reject : FetchResult
  /-- A response with an HTTP status; `body` is what `res.json()` resolves
  to, or `none` when it rejects (absent or malformed JSON). -/
  | response (status : Nat) (body : Option JVal) : FetchResult

/-- The flag `res.ok`: the status is in the range 200 to 299. -/
def statusOk (status : Nat) : Bool := 200 ≤ status && status ≤ 299

/-- What lies outside the script: the backend's answer per endpoint, the
random draws, and the text `new Date(v).toLocaleString()` gives. -/
structure World where
  fetch : String → FetchResult
  random : Random
  localeString : JVal → String

/-- How the promise of an `async` handler settles. -/
inductive Completion where
  | fulfilled : Completion
  | rejected : Completion
deriving DecidableEq

/-! ## Helpers of the script -/

/-- How a handler ends whose last statement is `r`: fulfilled with the page
`r` gives, or rejected on the page `p` reached before it when `r` throws. -/
def settle (p : Page) (r : Option Page) : Page × Completion :=
  match r with
  | some q => (q, .fulfilled)
  | none => (p, .rejected)

/-- The function `showOk`; `none` when the assignment to `textContent`
throws, before anything is changed. -/
def showOk (msg : JVal) (p : Page) : Option Page :=
  match msg.textContentOf with
  | none => none
  | some text => some { p with okText := text, okDisplay := "block", errDisplay := "none" }

/-- The function `showErr`; `none` when the assignment to `textContent`
throws, before anything is changed. -/
def showErr (msg : JVal) (p : Page) : Option Page :=
  match msg.textContentOf with
  | none => none
  | some text => some { p with errText := text, errDisplay := "block", okDisplay := "none" }

/-- The function `clearAlerts`. -/
def clearAlerts (p : Page) : Page :=
  { p with okDisplay := "none", errDisplay := "none", okText := "", errText := "" }

/-- The function `addMessage`: a new `div` with class `msg who` and the text
is appended to the transcript; `none` when the assignment to `textContent`
throws, which is before the `div` is appended. -/
def addMessage (text : JVal) (who : String) (p : Page) : Option Page :=
  match text.textContentOf with
  | none => none
  | some t => some { p with chat := p.chat ++ [{ className := "msg " ++ who, text := t }] }

/-- The function `setAuthUI`; `none` when interpolating `role` or `userId`
into the user text throws, before anything is changed. -/
def setAuthUI (isLoggedIn : Bool) (role userId : JVal) (p : Page) : Option Page :=
  if isLoggedIn then
    match role.toStr, userId.toStr with
    | some r, some u =>
      some { p with
        userText := "Logged in • " ++ r ++ " • id " ++ u,
        logoutDisplay := "inline-block" }
    | _, _ => none
  else
    some { p with userText := "Not logged in", logoutDisplay := "none" }

/-- The click handler of `#tabLogin`. -/
def tabLoginClick (p : Page) : Page :=
  clearAlerts { p with
    tabLoginActive := true, tabSignupActive := false,
    loginPaneDisplay := "block", signupPaneDisplay := "none" }

/-- The click handler of `#tabSignup`. -/
def tabSignupClick (p : Page) : Page :=
  clearAlerts { p with
    tabSignupActive := true, tabLoginActive := false,
    signupPaneDisplay := "block", loginPaneDisplay := "none" }

/-- The page after one more request has been handed to `fetch`. -/
def issue (r : Request) (p : Page) : Page :=
  { p with requests := p.requests ++ [r] }

/-- The function `apiGet`: `none` when the returned promise rejects (the
fetch fails or the body is not JSON), else the parsed body. The status is
not looked at. -/
def apiGet (w : World) (url : String) : Option JVal :=
  match w.fetch url with
  | .reject => none
  | .response _ body => body

/-- The function `apiPost`: `none` when the returned promise rejects (the
fetch fails), else `ok`, `status` and `data`, where a body that is not JSON
reads as the empty object. -/
def apiPost (w : World) (url : String) : Option (Bool × Nat × JVal) :=
  match w.fetch url with
  | .reject => none
  | .response status body => some (statusOk status, status, body.getD (.obj []))

/-! ## History pane -/

/-- The element built for one session inside `sessions.forEach`; `none` when
the callback throws: on reading `s.id` from `null`, on interpolating `s.id`,
or on `new Date(s.started_at)`, which converts an object or array to a
primitive first. -/
def historyItem (w : World) (s : JVal) : Option HistNode :=
  match s.get "id", s.get "started_at" with
  | some id, some startedAt =>
    match id.toStr, startedAt.toStr with
    | some idText, some _ =>
      some (.item ("<div>Chat #" ++ idText ++ "</div><div class=\"date\">" ++
        w.localeString startedAt ++ "</div>"))
    | _, _ => none
  | _, _ => none

/-- The loop `sessions.forEach(...)` appending to the children `acc`; `none`
when the callback throws. -/
def renderSessions (w : World) : List JVal → List HistNode → Option (List HistNode)
  | [], acc => some acc
  | s :: rest, acc =>
    match historyItem w s with
    | none => none
    | some node => renderSessions w rest (acc ++ [node])

/-- The function `loadHistory`, run to completion. Its promise never
rejects: the first lines assign constant strings, and whatever is thrown
after them is caught, the `catch` replacing the whole pane by a note. -/
def loadHistory (w : World) (p : Page) : Page :=
  if p.userText = "Not logged in" then
    { p with historyList := [.note "Login to see past conversations."] }
  else
    let p := { p with historyList := [.note "Loading history..."] }
    let p := issue ⟨"GET", "/history", none⟩ p
    let failed : Page := { p with historyList := [.note "Failed to load history."] }
    match w.fetch "/history" with
    | .reject => failed
    | .response status body =>
      if !statusOk status then
        { p with historyList := [.note "Endpoint /history not yet implemented in app.py."] }
      else
        match body with
        | none => failed
        | some (.arr (s :: rest)) =>
          match renderSessions w (s :: rest) [] with
          | none => failed
          | some nodes => { p with historyList := nodes }
        | some _ => { p with historyList := [.note "No past conversations."] }

/-! ## Authentication view -/

/-- The `try` block of `refreshMe`: `none` when it throws, which happens
before it has changed anything: `apiGet` rejects, `me.logged_in` is read
from `null`, or `setAuthUI` throws. -/
def refreshMeTry (w : World) (p : Page) : Option Page :=
  match apiGet w "/me" with
  | none => none
  | some me =>
    match me.get "logged_in", me.get "role", me.get "user_id" with
    | some loggedIn, some role, some userId =>
      match setAuthUI loggedIn.truthy role userId p with
      | some q => some { q with apiDotClass := "dot good", apiText := "Backend online" }
      | none => none
    | _, _, _ => none

/-- The function `refreshMe` together with the `loadHistory` it starts
without awaiting it. -/
def refreshMe (w : World) (p : Page) : Page × Completion :=
  let p := issue ⟨"GET", "/me", none⟩ p
  match refreshMeTry w p with
  | some q => (loadHistory w q, .fulfilled)
  | none =>
    let p := { p with apiDotClass := "dot bad", apiText := "Backend offline" }
    match setAuthUI false .undefined .undefined p with
    | some q => (loadHistory w q, .fulfilled)
    | none => (p, .rejected)

/-! ## Sender identifier: page load and new chat -/

/-- Lines 21 to 26: `SENDER_ID` is read from storage, generated and stored
when that value is falsy (`null` or the empty string), and shown. -/
def initSender (rand : Random) (p : Page) : Page :=
  let p := { p with senderId := p.storage }
  let p :=
    match p.senderId with
    | none => { p with senderId := some (uuidv4 rand), storage := some (uuidv4 rand) }
    | some s =>
      if s = "" then { p with senderId := some (uuidv4 rand), storage := some (uuidv4 rand) }
      else p
  { p with senderView := (match p.senderId with
      | none => ""
      | some s => s) }

/-- The whole script at page load, from the page as the HTML gives it. A
throw at the top level would end the script on the page reached; the promise
of the final `refreshMe()` is not looked at. -/
def pageInit (w : World) (p : Page) : Page :=
  let p := initSender w.random p
  match addMessage (.str "Hi! You can sign up/login on the top right, then ask me questions.")
      "bot" p with
  | none => p
  | some q => (refreshMe w q).1

/-- The click handler of `#newChatBtn`. -/
def newChatClick (rand : Random) (p : Page) : Page :=
  let id := uuidv4 rand
  let p := { p with senderId := some id, storage := some id, senderView := id, chat := [] }
  match addMessage (.str "Started a new conversation! How can I help?") "bot" p with
  | none => p
  | some q => q

/-! ## Login, signup, logout -/

/-- The statement `showErr(data.error || fallback)` of the three handlers
below; `none` when it throws, on reading `error` from `null` or on
converting the error to a string. -/
def showError (data : JVal) (fallback : String) (p : Page) : Option Page :=
  match data.get "error" with
  | none => none
  | some err => showErr (err.or (.str fallback)) p

/-- The click handler of `#loginBtn`. There is no `try` in it: when
`apiPost` rejects or a statement throws, the handler's promise rejects with
the page as it is at that point. -/
def loginClick (w : World) (p : Page) : Page × Completion :=
  let p := clearAlerts p
  let email := jsTrim p.loginEmail
  let password := p.loginPassword
  if email = "" ∨ password = "" then
    settle p (showErr (.str "Please enter email and password.") p)
  else
    let p := issue ⟨"POST", "/login",
      some (.obj [("email", .str email), ("password", .str password)])⟩ p
    match apiPost w "/login" with
    | none => (p, .rejected)
    | some (ok, _, data) =>
      if !ok then settle p (showError data "Login failed." p)
      else
        match showOk (.str "Login successful.") p with
        | none => (p, .rejected)
        | some q => refreshMe w q

/-- The click handler of `#signupBtn`. -/
def signupClick (w : World) (p : Page) : Page × Completion :=
  let p := clearAlerts p
  let fullName := jsTrim p.signupName
  let email := jsTrim p.signupEmail
  let password := p.signupPassword
  if email = "" ∨ password = "" then
    settle p (showErr (.str "Please enter email and password.") p)
  else
    let p := issue ⟨"POST", "/signup",
      some (.obj [("email", .str email), ("password", .str password),
        ("full_name", .str fullName)])⟩ p
    match apiPost w "/signup" with
    | none => (p, .rejected)
    | some (ok, status, data) =>
      if !ok then
        if status = 409 then
          settle p (showErr (.str "Email already exists. Try logging in instead.") p)
        else settle p (showError data "Signup failed." p)
      else
        match showOk (.str "Account created. You can login now.") p with
        | none => (p, .rejected)
        | some q =>
          ({ tabLoginClick q with loginEmail := email, loginPassword := "" }, .fulfilled)

/-- The click handler of `#logoutBtn`. -/
def logoutClick (w : World) (p : Page) : Page × Completion :=
  let p := clearAlerts p
  let p := issue ⟨"POST", "/logout", some (.obj [])⟩ p
  match apiPost w "/logout" with
  | none => (p, .rejected)
  | some (ok, _, data) =>
    if !ok then settle p (showError data "Logout failed." p)
    else
      match showOk (.str "Logged out.") p with
      | none => (p, .rejected)
      | some q => refreshMe w q

/-! ## Chat -/

/-- The text computed on line 245 for a non-success `/chat` response; `none`
when one of the two string concatenations throws. -/
def chatErrorMsg (data : JVal) : Option String :=
  if (data.and fun _ => (data.prop "error").or (data.prop "details")).truthy then
    match (data.prop "error").toStr,
      (if (data.prop "details").truthy then
        (data.prop "details").toStr.map fun d => ": " ++ d
      else some "") with
    | some e, some rest => some (e ++ rest)
    | _, _ => none
  else some "Chat request failed."

/-- The callback of `data.forEach` in `sendMessage`:
`if (m && m.text) addMessage(m.text, "bot")`; `none` when it throws. -/
def renderFragment (p : Page) (m : JVal) : Option Page :=
  if (m.and fun _ => m.prop "text").truthy then addMessage (m.prop "text") "bot" p
  else some p

/-- The loop `data.forEach(...)` of `sendMessage`: the page reached, and
whether the loop ran to its end (`true`) or a callback threw (`false`), in
which case the messages appended before stay. -/
def renderFragments : List JVal → Page → Page × Bool
  | [], p => (p, true)
  | m :: rest, p =>
    match renderFragment p m with
    | some q => renderFragments rest q
    | none => (p, false)

/-- The `try` block of `sendMessage`: the page reached, and whether the
block ran to its end (`true`) or threw (`false`). A rejected fetch throws;
`res.json()` failing is turned into `null` on the spot. -/
def sendMessageTry (w : World) (p : Page) : Page × Bool :=
  match w.fetch "/chat" with
  | .reject => (p, false)
  | .response status body =>
    let data := body.getD .null
    if !statusOk status then
      match chatErrorMsg data with
      | none => (p, false)
      | some msg =>
        match addMessage (.str msg) "bot" p with
        | some q => (q, true)
        | none => (p, false)
    else
      match data with
      | .arr (m :: rest) => renderFragments (m :: rest) p
      | _ =>
        match addMessage (.str "No response from bot.") "bot" p with
        | some q => (q, true)
        | none => (p, false)

/-- The function `sendMessage`. -/
def sendMessage (w : World) (p : Page) : Page × Completion :=
  let text := jsTrim p.inputValue
  if text = "" then (p, .fulfilled)
  else
    match addMessage (.str text) "user" p with
    | none => (p, .rejected)
    | some p =>
      let p := { p with inputValue := "" }
      let p := issue ⟨"POST", "/chat",
        some (.obj [("sender", match p.senderId with
          | none => .null
          | some s => .str s), ("message", .str text)])⟩ p
      match sendMessageTry w p with
      | (q, true) => (q, .fulfilled)
      | (q, false) =>
        settle q
          (addMessage (.str "Error connecting to backend (is Flask running on port 8000?)")
            "bot" q)

/-! ## Concrete pages and worlds -/

/-- A page with nothing in it: no identifier, empty storage, empty transcript
and history pane, every text empty. -/
def Page.blank : Page where
  senderId := none
  storage := none
  senderView := ""
  chat := []
  inputValue := ""
  historyList := []
  tabLoginActive := false
  tabSignupActive := false
  loginPaneDisplay := ""
  signupPaneDisplay := ""
  okText := ""
  okDisplay := ""
  errText := ""
  errDisplay := ""
  apiDotClass := ""
  apiText := ""
  userText := ""
  logoutDisplay := ""
  loginEmail := ""
  loginPassword := ""
  signupName := ""
  signupEmail := ""
  signupPassword := ""
  requests := []

/-- A page whose login and signup forms are filled in. -/
def Page.filled : Page :=
  { Page.blank with
    loginEmail := "ada@kpu.ca", loginPassword := "secret",
    signupName := "Ada", signupEmail := "ada@kpu.ca", signupPassword := "secret" }

/-- A world in which every endpoint ends the same way, every random draw is
0 and dates render as the empty text. -/
def World.always (r : FetchResult) : World where
  fetch := fun _ => r
  random := fun _ => 0
  localeString := fun _ => ""

/-- The parsed object `{"toString": 1}`: it has no string conversion. -/
def unprintable : JVal := .obj [("toString", .num ⟨"1", true⟩)]

/-- A `/chat` body of three fragments, the middle one with an empty text. -/
def fragmentsWithBlank : List JVal :=
  [.obj [("text", .str "A")], .obj [("text", .str "")], .obj [("text", .str "B")]]

/-! ## What the claims say, in their own words -/

/-- The text of the single bot message shown for a non-success `/chat`
response: "Chat request failed." when the body is unparseable or has neither
a truthy `error` nor a truthy `details`; otherwise the string conversion of
`error`, followed by ": " and the string conversion of the details when
`details` is truthy; and the connection-error text when one of these
conversions throws. -/
def specChatFailureText (body : Option JVal) : String :=
  match body with
  | none => "Chat request failed."
  | some data =>
    if (data.prop "error").truthy = false ∧ (data.prop "details").truthy = false then
      "Chat request failed."
    else if (data.prop "details").truthy then
      match (data.prop "error").toStr, (data.prop "details").toStr with
      | some e, some d => e ++ ": " ++ d
      | _, _ => "Error connecting to backend (is Flask running on port 8000?)"
    else
      match (data.prop "error").toStr with
      | some e => e
      | none => "Error connecting to backend (is Flask running on port 8000?)"

/-- The bot messages shown for the fragments of a success response: in
order, one for each fragment whose `text` is truthy, carrying that text;
nothing for a fragment whose `text` is falsy; and at the first truthy text
that has no string conversion the connection-error text, after which no
further fragment is shown. -/
def fragmentMessages : List JVal → List Msg
  | [] => []
  | m :: rest =>
    if (m.prop "text").truthy then
      match (m.prop "text").toStr with
      | some t => { className := "msg bot", text := t } :: fragmentMessages rest
      | none =>
        [{ className := "msg bot",
           text := "Error connecting to backend (is Flask running on port 8000?)" }]
    else fragmentMessages rest

/-- Whether the `try` block of `refreshMe` throws on a parsed `/me` body:
the body is `null` (or `undefined`), so that `logged_in` cannot be read, or
`logged_in` is truthy and the role or the user id has no string conversion. -/
def meBodyThrows (me : JVal) : Bool :=
  (me.get "logged_in").isNone ||
    ((me.prop "logged_in").truthy &&
      ((me.prop "role").toStr.isNone || (me.prop "user_id").toStr.isNone))

/-! ## String conversion of strings -/

theorem toStr_str (s : String) : (JVal.str s).toStr = some s := by
  simp [JVal.toStr]

theorem toStr_undefined : JVal.undefined.toStr = some "undefined" := by
  simp [JVal.toStr]

theorem truthy_undefined : JVal.undefined.truthy = false := rfl

theorem textContentOf_str (s : String) : (JVal.str s).textContentOf = some s := by
  simp [JVal.textContentOf, toStr_str]

theorem textContentOf_truthy (v : JVal) (h : v.truthy = true) :
    v.textContentOf = v.toStr := by
  cases v <;> simp_all [JVal.textContentOf, JVal.truthy]

theorem addMessage_str (s who : String) (p : Page) :
    addMessage (.str s) who p =
      some { p with chat := p.chat ++ [{ className := "msg " ++ who, text := s }] } := by
  simp [addMessage, textContentOf_str]

theorem showErr_str (s : String) (p : Page) :
    showErr (.str s) p =
      some { p with errText := s, errDisplay := "block", okDisplay := "none" } := by
  simp [showErr, textContentOf_str]

theorem showOk_str (s : String) (p : Page) :
    showOk (.str s) p =
      some { p with okText := s, okDisplay := "block", errDisplay := "none" } := by
  simp [showOk, textContentOf_str]

theorem setAuthUI_false (r u : JVal) (p : Page) :
    setAuthUI false r u p = some { p with userText := "Not logged in", logoutDisplay := "none" } := by
  simp [setAuthUI]

theorem and_prop_truthy (m : JVal) (k : String) :
    (m.and fun _ => m.prop k).truthy = (m.prop k).truthy := by
  unfold JVal.and
  by_cases h : m.truthy = true
  · simp [h]
  · cases m <;> simp_all [JVal.truthy, JVal.prop]

/-! ## Generated identifiers -/

theorem uuidDigit_x (r : Fin 16) : uuidDigit r 'x' = [Nat.digitChar r.val] := by
  revert r; decide

theorem uuidDigit_y (r : Fin 16) : uuidDigit r 'y' = [Nat.digitChar (r.val &&& 0x3 ||| 0x8)] := by
  revert r; decide

theorem digitChar_hex (r : Fin 16) : isLowerHex (Nat.digitChar r.val) = true := by
  revert r; decide

theorem digitChar_variant (r : Fin 16) :
    uuidCharOk 19 (Nat.digitChar (r.val &&& 0x3 ||| 0x8)) = true := by
  revert r; decide

theorem uuidv4_data (rand : Random) :
    (uuidv4 rand).data =
      (List.range 8).map (fun k => Nat.digitChar (rand k).val) ++ '-' ::
      (List.range 4).map (fun k => Nat.digitChar (rand (k + 8)).val) ++ '-' :: '4' ::
      (List.range 3).map (fun k => Nat.digitChar (rand (k + 12)).val) ++ '-' ::
      Nat.digitChar ((rand 15).val &&& 0x3 ||| 0x8) ::
      (List.range 3).map (fun k => Nat.digitChar (rand (k + 16)).val) ++ '-' ::
      (List.range 12).map (fun k => Nat.digitChar (rand (k + 19)).val) := by
  simp [uuidv4, uuidTemplate, replaceXY, uuidDigit_x, uuidDigit_y, List.range, List.range.loop]

theorem uuidv4_shape (rand : Random) : UuidShape (uuidv4 rand) := by
  constructor
  · simp [uuidv4_data]
  · intro i c h
    have hi : i < 36 := by
      have := (List.getElem?_eq_some.1 h).1
      simpa [uuidv4_data] using this
    rw [uuidv4_data] at h
    interval_cases i <;>
      simp [List.range, List.range.loop] at h <;>
      subst h <;>
      first
        | exact digitChar_variant _
        | (simp [uuidCharOk, digitChar_hex])

theorem uuidv4_ne_empty (rand : Random) : uuidv4 rand ≠ "" := by
  intro h
  have := (uuidv4_shape rand).1
  rw [h] at this
  simp at this

/-! ## What `loadHistory` and `refreshMe` leave alone -/

theorem loadHistory_senderId (w : World) (p : Page) :
    (loadHistory w p).senderId = p.senderId := by
  unfold loadHistory; (repeat' split) <;> rfl

theorem loadHistory_storage (w : World) (p : Page) :
    (loadHistory w p).storage = p.storage := by
  unfold loadHistory; (repeat' split) <;> rfl

theorem loadHistory_userText (w : World) (p : Page) :
    (loadHistory w p).userText = p.userText := by
  unfold loadHistory; (repeat' split) <;> rfl

theorem loadHistory_apiText (w : World) (p : Page) :
    (loadHistory w p).apiText = p.apiText := by
  unfold loadHistory; (repeat' split) <;> rfl

theorem loadHistory_logoutDisplay (w : World) (p : Page) :
    (loadHistory w p).logoutDisplay = p.logoutDisplay := by
  unfold loadHistory; (repeat' split) <;> rfl

theorem setAuthUI_keeps (b : Bool) (r u : JVal) (p q : Page) (h : setAuthUI b r u p = some q) :
    q.senderId = p.senderId ∧ q.storage = p.storage := by
  unfold setAuthUI at h
  split at h
  · split at h
    · cases h; exact ⟨rfl, rfl⟩
    · cases h
  · cases h; exact ⟨rfl, rfl⟩

theorem refreshMeTry_keeps (w : World) (p q : Page) (h : refreshMeTry w p = some q) :
    q.senderId = p.senderId ∧ q.storage = p.storage := by
  unfold refreshMeTry at h
  split at h
  · cases h
  · split at h
    · split at h
      · rename_i q0 hq0
        cases h
        exact setAuthUI_keeps _ _ _ p q0 hq0
      · cases h
    · cases h

theorem refreshMe_eq (w : World) (p : Page) :
    refreshMe w p =
      (loadHistory w ((refreshMeTry w (issue ⟨"GET", "/me", none⟩ p)).getD
        { issue ⟨"GET", "/me", none⟩ p with
          apiDotClass := "dot bad", apiText := "Backend offline",
          userText := "Not logged in", logoutDisplay := "none" }), .fulfilled) := by
  unfold refreshMe
  simp only [setAuthUI_false]
  cases refreshMeTry w (issue ⟨"GET", "/me", none⟩ p) <;> rfl

theorem refreshMe_keeps (w : World) (p : Page) :
    (refreshMe w p).1.senderId = p.senderId ∧ (refreshMe w p).1.storage = p.storage := by
  rw [refreshMe_eq]
  simp only [loadHistory_senderId, loadHistory_storage]
  rcases h : refreshMeTry w (issue ⟨"GET", "/me", none⟩ p) with _ | q
  · exact ⟨rfl, rfl⟩
  · exact refreshMeTry_keeps w (issue ⟨"GET", "/me", none⟩ p) q h

/-- C6. After the script has run at page load, `SENDER_ID` is a non-empty
string equal to the value stored under `kpu_sender_id`; a non-empty value
already in storage is kept, and otherwise (key absent or empty string) the
value is a generated one of the fixed UUID shape, whatever the random draws. -/
theorem pageInit_sender (w : World) (p : Page) :
    ∃ s, (pageInit w p).senderId = some s ∧ s ≠ "" ∧ (pageInit w p).storage = some s ∧
      (∀ t, p.storage = some t → t ≠ "" → s = t) ∧
      (p.storage = none ∨ p.storage = some "" → s = uuidv4 w.random ∧ UuidShape s) := by
  simp only [pageInit, addMessage_str, (refreshMe_keeps w _).1, (refreshMe_keeps w _).2,
    initSender]
  rcases hs : p.storage with _ | t
  · exact ⟨uuidv4 w.random, by simp [uuidv4_ne_empty, uuidv4_shape]⟩
  · by_cases ht : t = ""
    · subst ht
      exact ⟨uuidv4 w.random, by simp [uuidv4_ne_empty, uuidv4_shape]⟩
    · exact ⟨t, by simp [ht]⟩

/-- C5, as the code has it. The new-chat action sets `SENDER_ID` and the
stored value to the freshly generated identifier, which has the UUID shape,
and leaves the transcript holding only the bot greeting; the new identifier
differs from the previous one exactly when the generator did not happen to
produce the previous one again. -/
theorem newChatClick_sender (rand : Random) (p : Page) :
    (newChatClick rand p).senderId = some (uuidv4 rand) ∧
    (newChatClick rand p).storage = some (uuidv4 rand) ∧
    (newChatClick rand p).senderView = uuidv4 rand ∧
    UuidShape (uuidv4 rand) ∧
    (newChatClick rand p).chat =
      [⟨"msg bot", "Started a new conversation! How can I help?"⟩] ∧
    ((newChatClick rand p).senderId ≠ p.senderId ↔ p.senderId ≠ some (uuidv4 rand)) := by
  have h : newChatClick rand p =
      { p with
        senderId := some (uuidv4 rand), storage := some (uuidv4 rand),
        senderView := uuidv4 rand,
        chat := [⟨"msg bot", "Started a new conversation! How can I help?"⟩] } := by
    simp [newChatClick, addMessage_str]
  rw [h]
  exact ⟨rfl, rfl, rfl, uuidv4_shape rand, rfl, ne_comm⟩

/-- C5, counterexample. On the page that page load left with a generated
identifier (draws all 0), a new chat whose draws are again all 0 ends with
the same `SENDER_ID` as before. -/
theorem newChatClick_same_sender :
    (initSender (fun _ => 0) Page.blank).senderId =
        some "00000000-0000-4000-8000-000000000000" ∧
    (newChatClick (fun _ => 0) (initSender (fun _ => 0) Page.blank)).senderId =
      (initSender (fun _ => 0) Page.blank).senderId := by
  decide

/-! ## The authentication view -/

theorem loggedIn_ne_notLoggedIn (a b : String) :
    "Logged in • " ++ a ++ " • id " ++ b ≠ "Not logged in" := by
  intro h
  have := congrArg (fun s => s.data.head?) h
  simp [String.data_append] at this

theorem meBodyThrows_iff (me : JVal) :
    meBodyThrows me = true ↔
      (me = .null ∨ me = .undefined ∨
        ((me.prop "logged_in").truthy = true ∧
          ((me.prop "role").toStr = none ∨ (me.prop "user_id").toStr = none))) := by
  cases me with
  | obj kvs => simp [meBodyThrows, JVal.get, JVal.prop]
  | _ => simp [meBodyThrows, JVal.get, JVal.prop, JVal.truthy]

theorem refreshMeTry_eq (w : World) (p : Page) :
    refreshMeTry w p =
      match apiGet w "/me" with
      | none => none
      | some me =>
        if meBodyThrows me = true then none
        else if (me.prop "logged_in").truthy = true then
          some { p with
            userText := "Logged in • " ++ ((me.prop "role").toStr.getD "") ++ " • id " ++
              ((me.prop "user_id").toStr.getD ""),
            logoutDisplay := "inline-block",
            apiDotClass := "dot good", apiText := "Backend online" }
        else
          some { p with
            userText := "Not logged in", logoutDisplay := "none",
            apiDotClass := "dot good", apiText := "Backend online" } := by
  unfold refreshMeTry
  rcases apiGet w "/me" with _ | me
  · rfl
  · cases me with
    | obj kvs =>
      simp only [meBodyThrows, JVal.get, JVal.prop, setAuthUI]
      by_cases ht : (JVal.lookup "logged_in" kvs).truthy = true
      · rcases hr : (JVal.lookup "role" kvs).toStr with _ | r <;>
          rcases hu : (JVal.lookup "user_id" kvs).toStr with _ | u <;>
          simp [ht]
      · simp [ht]
    | _ => simp [meBodyThrows, JVal.get, JVal.prop, JVal.truthy, setAuthUI]

/-- The page `refreshMe` ends on, by the outcome of the `/me` request. -/
theorem refreshMe_page (w : World) (p : Page) :
    (refreshMe w p).1 =
      loadHistory w
        (match w.fetch "/me" with
        | .response _ (some me) =>
          if meBodyThrows me = true then
            { issue ⟨"GET", "/me", none⟩ p with
              apiDotClass := "dot bad", apiText := "Backend offline",
              userText := "Not logged in", logoutDisplay := "none" }
          else if (me.prop "logged_in").truthy = true then
            { issue ⟨"GET", "/me", none⟩ p with
              userText := "Logged in • " ++ ((me.prop "role").toStr.getD "") ++ " • id " ++
                ((me.prop "user_id").toStr.getD ""),
              logoutDisplay := "inline-block",
              apiDotClass := "dot good", apiText := "Backend online" }
          else
            { issue ⟨"GET", "/me", none⟩ p with
              userText := "Not logged in", logoutDisplay := "none",
              apiDotClass := "dot good", apiText := "Backend online" }
        | _ =>
          { issue ⟨"GET", "/me", none⟩ p with
            apiDotClass := "dot bad", apiText := "Backend offline",
            userText := "Not logged in", logoutDisplay := "none" }) := by
  rw [refreshMe_eq, refreshMeTry_eq]
  unfold apiGet
  rcases w.fetch "/me" with _ | ⟨status, body⟩
  · rfl
  · rcases body with _ | me
    · rfl
    · by_cases h1 : meBodyThrows me = true
      · simp [h1]
      · by_cases h2 : (me.prop "logged_in").truthy = true <;> simp [h1, h2]

theorem refreshMe_fulfilled (w : World) (p : Page) : (refreshMe w p).2 = .fulfilled := by
  rw [refreshMe_eq]

/-- C4. When `/me` answers with a body whose `logged_in` is `false`, then
after `refreshMe` and the `loadHistory` it starts the history pane holds
exactly the note "Login to see past conversations." and the only request
issued is the one to `/me`: none goes to `/history`. -/
theorem refreshMe_logged_out_history (w : World) (p : Page) (status : Nat) (me : JVal)
    (hfetch : w.fetch "/me" = .response status (some me))
    (hme : me.get "logged_in" = some (.bool false)) :
    (refreshMe w p).1.historyList = [.note "Login to see past conversations."] ∧
    (refreshMe w p).1.requests = p.requests ++ [⟨"GET", "/me", none⟩] ∧
    ∀ r ∈ (refreshMe w p).1.requests, r ∉ p.requests → r.url ≠ "/history" := by
  have hprop : me.prop "logged_in" = .bool false := by
    cases me <;> simp_all [JVal.get]
  have hthrows : meBodyThrows me = false := by
    cases me <;> simp_all [meBodyThrows, JVal.get, JVal.truthy]
  have key : (refreshMe w p).1 =
      { issue ⟨"GET", "/me", none⟩ p with
        userText := "Not logged in", logoutDisplay := "none",
        apiDotClass := "dot good", apiText := "Backend online",
        historyList := [.note "Login to see past conversations."] } := by
    rw [refreshMe_page, hfetch]
    simp [hthrows, hprop, JVal.truthy, loadHistory]
  rw [key]
  refine ⟨rfl, rfl, ?_⟩
  intro r hr hnot
  simp [issue] at hr
  rcases hr with hr | hr
  · exact absurd hr hnot
  · subst hr; decide

/-- C4, at a concrete input: `/me` answers `{"logged_in": false}`. -/
theorem refreshMe_logged_out_history_witness :
    (refreshMe (World.always (.response 200 (some (.obj [("logged_in", .bool false)]))))
        Page.blank).1.historyList = [.note "Login to see past conversations."] ∧
    (refreshMe (World.always (.response 200 (some (.obj [("logged_in", .bool false)]))))
        Page.blank).1.requests = Page.blank.requests ++ [⟨"GET", "/me", none⟩] ∧
    ∀ r ∈ (refreshMe (World.always (.response 200 (some (.obj [("logged_in", .bool false)]))))
        Page.blank).1.requests, r ∉ Page.blank.requests → r.url ≠ "/history" :=
  refreshMe_logged_out_history _ Page.blank 200 (.obj [("logged_in", .bool false)]) rfl rfl

/-- C9. On a page showing a logged-in user, a `/history` response with a
status outside 200 to 299 leaves the history pane holding exactly the note
"Endpoint /history not yet implemented in app.py.", whatever the body, which
is not read. -/
theorem loadHistory_not_ok (w : World) (p : Page) (status : Nat) (body : Option JVal)
    (hlogged : p.userText ≠ "Not logged in")
    (hfetch : w.fetch "/history" = .response status body)
    (hstatus : statusOk status = false) :
    (loadHistory w p).historyList =
      [.note "Endpoint /history not yet implemented in app.py."] := by
  simp [loadHistory, hlogged, hfetch, hstatus]

/-- C9, at a concrete input: a logged-in page and a 404 without a body. -/
theorem loadHistory_not_ok_witness :
    (loadHistory (World.always (.response 404 none))
        { Page.blank with userText := "Logged in • student • id 7" }).historyList =
      [.note "Endpoint /history not yet implemented in app.py."] :=
  loadHistory_not_ok _ _ 404 none (by decide) rfl (by decide)

/-- C7, as the code has it. `refreshMe` always completes. When the `/me`
request fails (the fetch rejects or the body is not JSON) the connectivity
text is "Backend offline", the user text "Not logged in" and the logout
button hidden. When it yields a parsed body `me`: the connectivity text is
"Backend offline" exactly when the `try` block throws on it, that is when
`me` is `null`, or `logged_in` is truthy and the role or the user id has no
string conversion, and "Backend online" exactly when it does not; the user
text is "Not logged in" with the logout button hidden exactly when the block
throws or `logged_in` is falsy; and otherwise the user text is the logged-in
form with the string conversions of the returned role and user id, with the
logout button shown. -/
theorem refreshMe_indicator (w : World) (p : Page) :
    (refreshMe w p).2 = .fulfilled ∧
    ((w.fetch "/me" = .reject ∨ ∃ status, w.fetch "/me" = .response status none) →
      (refreshMe w p).1.apiText = "Backend offline" ∧
      (refreshMe w p).1.userText = "Not logged in" ∧
      (refreshMe w p).1.logoutDisplay = "none") ∧
    (∀ status me, w.fetch "/me" = .response status (some me) →
      ((refreshMe w p).1.apiText = "Backend offline" ↔
        (me = .null ∨ me = .undefined ∨
          ((me.prop "logged_in").truthy = true ∧
            ((me.prop "role").toStr = none ∨ (me.prop "user_id").toStr = none)))) ∧
      ((refreshMe w p).1.apiText = "Backend online" ↔
        ¬ (me = .null ∨ me = .undefined ∨
          ((me.prop "logged_in").truthy = true ∧
            ((me.prop "role").toStr = none ∨ (me.prop "user_id").toStr = none)))) ∧
      (((refreshMe w p).1.userText = "Not logged in" ∧
          (refreshMe w p).1.logoutDisplay = "none") ↔
        ((me.prop "logged_in").truthy = false ∨
          (me.prop "role").toStr = none ∨ (me.prop "user_id").toStr = none)) ∧
      (∀ r u, (me.prop "logged_in").truthy = true →
        (me.prop "role").toStr = some r → (me.prop "user_id").toStr = some u →
        (refreshMe w p).1.userText = "Logged in • " ++ r ++ " • id " ++ u ∧
        (refreshMe w p).1.logoutDisplay = "inline-block")) := by
  have hne : "Backend offline" ≠ "Backend online" := by decide
  refine ⟨refreshMe_fulfilled w p, ?_, ?_⟩
  · intro h
    rw [refreshMe_page]
    simp only [loadHistory_apiText, loadHistory_userText, loadHistory_logoutDisplay]
    rcases h with h | ⟨status, h⟩ <;> rw [h] <;> exact ⟨rfl, rfl, rfl⟩
  · intro status me h
    rw [refreshMe_page]
    simp only [loadHistory_apiText, loadHistory_userText, loadHistory_logoutDisplay, h]
    rw [← meBodyThrows_iff]
    by_cases h1 : meBodyThrows me = true
    · have h1' := (meBodyThrows_iff me).1 h1
      refine ⟨by simp [h1], by simp [h1, hne], ?_, ?_⟩
      · simp only [h1, if_true, true_and, true_iff]
        rcases h1' with rfl | rfl | ⟨_, h3⟩
        · left; rfl
        · left; rfl
        · right; exact h3
      · intro r u ht hr hu
        rcases h1' with rfl | rfl | ⟨_, h3⟩
        · simp [JVal.prop, JVal.truthy] at ht
        · simp [JVal.prop, JVal.truthy] at ht
        · rw [hr, hu] at h3
          simp at h3
    · have h1' : ¬ _ := fun hh => h1 ((meBodyThrows_iff me).2 hh)
      by_cases h2 : (me.prop "logged_in").truthy = true
      · obtain ⟨r0, hr0⟩ : ∃ r0, (me.prop "role").toStr = some r0 := by
          rcases hh : (me.prop "role").toStr with _ | r0
          · exact absurd (Or.inr (Or.inr ⟨h2, Or.inl hh⟩)) h1'
          · exact ⟨r0, rfl⟩
        obtain ⟨u0, hu0⟩ : ∃ u0, (me.prop "user_id").toStr = some u0 := by
          rcases hh : (me.prop "user_id").toStr with _ | u0
          · exact absurd (Or.inr (Or.inr ⟨h2, Or.inr hh⟩)) h1'
          · exact ⟨u0, rfl⟩
        refine ⟨by simp [h1, h2, hne.symm], by simp [h1, h2], ?_, ?_⟩
        · simp [h1, h2, hr0, hu0, loggedIn_ne_notLoggedIn]
        · intro r u _ hr hu
          rw [hr0] at hr
          rw [hu0] at hu
          cases hr
          cases hu
          simp [h1, h2, hr0, hu0]
      · refine ⟨by simp [h1, h2, hne.symm], by simp [h1, h2], ?_, ?_⟩
        · simp [h1, h2]
        · intro r u ht
          exact absurd ht h2

/-- C7, counterexample. `/me` answers 200 with the JSON body `null`: the
request did not fail (neither the fetch nor the parse), yet the connectivity
text reads "Backend offline". -/
theorem refreshMe_null_body_offline :
    (World.always (.response 200 (some .null))).fetch "/me" = .response 200 (some .null) ∧
    (refreshMe (World.always (.response 200 (some .null))) Page.blank).1.apiText =
      "Backend offline" :=
  ⟨rfl, by decide⟩

/-- A `/me` body with a truthy `logged_in` and the role `{"toString": 1}`:
building the user text throws, and the view falls back to logged out and
offline. -/
theorem refreshMe_unprintable_role :
    (refreshMe (World.always (.response 200 (some (.obj
        [("logged_in", .bool true), ("role", unprintable), ("user_id", .num ⟨"7", true⟩)]))))
      Page.blank).1.apiText = "Backend offline" ∧
    (refreshMe (World.always (.response 200 (some (.obj
        [("logged_in", .bool true), ("role", unprintable), ("user_id", .num ⟨"7", true⟩)]))))
      Page.blank).1.userText = "Not logged in" := by
  decide

/-- A `/me` body with the user id `1e21`: the user text carries the text
JavaScript prints for that number. -/
theorem refreshMe_large_user_id :
    (refreshMe (World.always (.response 200 (some (.obj
        [("logged_in", .bool true), ("role", .str "student"),
          ("user_id", .num ⟨"1e+21", true⟩)]))))
      Page.blank).1.userText = "Logged in • student • id 1e+21" := by
  decide

/-! ## Chat turns -/

theorem renderFragment_eq (p : Page) (m : JVal) :
    renderFragment p m =
      if (m.prop "text").truthy = true then
        match (m.prop "text").toStr with
        | some t => some { p with chat := p.chat ++ [{ className := "msg bot", text := t }] }
        | none => none
      else some p := by
  unfold renderFragment
  rw [and_prop_truthy]
  by_cases h : (m.prop "text").truthy = true
  · simp only [h, if_true, addMessage, textContentOf_truthy _ h]
    rcases (m.prop "text").toStr with _ | t
    · rfl
    · simp
  · simp [h]

theorem renderFragments_chat (frags : List JVal) (p : Page) :
    (if (renderFragments frags p).2 = true then (renderFragments frags p).1.chat
      else (renderFragments frags p).1.chat ++
        [{ className := "msg bot",
           text := "Error connecting to backend (is Flask running on port 8000?)" }]) =
      p.chat ++ fragmentMessages frags := by
  induction frags generalizing p with
  | nil => simp [renderFragments, fragmentMessages]
  | cons m rest ih =>
    unfold renderFragments fragmentMessages
    rw [renderFragment_eq]
    by_cases h : (m.prop "text").truthy = true
    · rcases ht : (m.prop "text").toStr with _ | t
      · simp [h]
      · simp only [h, if_true]
        rw [ih]
        simp
    · simp only [h]
      exact ih p

theorem fragmentMessages_of_texts (frags : List JVal) (texts : List String)
    (hnonempty : ∀ t ∈ texts, t ≠ "")
    (htexts : frags.map (fun m => m.prop "text") = texts.map JVal.str) :
    fragmentMessages frags = texts.map fun t => { className := "msg bot", text := t } := by
  induction frags generalizing texts with
  | nil =>
    cases texts with
    | nil => rfl
    | cons t ts => simp at htexts
  | cons m rest ih =>
    cases texts with
    | nil => simp at htexts
    | cons t ts =>
      simp only [List.map_cons, List.cons.injEq] at htexts
      have ht : t ≠ "" := hnonempty t (List.mem_cons_self _ _)
      unfold fragmentMessages
      rw [htexts.1]
      simp only [JVal.truthy, toStr_str, bne_iff_ne, ne_eq, ht, not_false_eq_true, if_true,
        List.map_cons]
      rw [ih ts (fun s hs => hnonempty s (List.mem_cons_of_mem _ hs)) htexts.2]

/-- The page `sendMessage` ends on for a non-blank input: the `try` block
run after the user's message, with the connection-error message appended
when the block throws. -/
theorem sendMessage_eq (w : World) (p : Page) (hinput : jsTrim p.inputValue ≠ "") :
    sendMessage w p =
      (if (sendMessageTry w (issue ⟨"POST", "/chat",
            some (.obj [("sender", match p.senderId with
              | none => .null
              | some s => .str s), ("message", .str (jsTrim p.inputValue))])⟩
            { p with
              chat := p.chat ++ [{ className := "msg user", text := jsTrim p.inputValue }],
              inputValue := "" })).2 = true then
        (sendMessageTry w (issue ⟨"POST", "/chat",
            some (.obj [("sender", match p.senderId with
              | none => .null
              | some s => .str s), ("message", .str (jsTrim p.inputValue))])⟩
            { p with
              chat := p.chat ++ [{ className := "msg user", text := jsTrim p.inputValue }],
              inputValue := "" })).1
      else
        { (sendMessageTry w (issue ⟨"POST", "/chat",
            some (.obj [("sender", match p.senderId with
              | none => .null
              | some s => .str s), ("message", .str (jsTrim p.inputValue))])⟩
            { p with
              chat := p.chat ++ [{ className := "msg user", text := jsTrim p.inputValue }],
              inputValue := "" })).1 with
          chat := (sendMessageTry w (issue ⟨"POST", "/chat",
            some (.obj [("sender", match p.senderId with
              | none => .null
              | some s => .str s), ("message", .str (jsTrim p.inputValue))])⟩
            { p with
              chat := p.chat ++ [{ className := "msg user", text := jsTrim p.inputValue }],
              inputValue := "" })).1.chat ++
            [{ className := "msg bot",
               text := "Error connecting to backend (is Flask running on port 8000?)" }] },
        .fulfilled) := by
  unfold sendMessage
  simp only [hinput, if_false, addMessage_str, settle]
  have hu : "msg " ++ "user" = "msg user" := by decide
  have hb : "msg " ++ "bot" = "msg bot" := by decide
  rw [hu, hb]
  generalize sendMessageTry w _ = r
  rcases r with ⟨q, b⟩
  cases b <;> simp

/-- C2, as the code has it. For a non-blank input and a success response
whose body is a non-empty array, `sendMessage` completes and appends the
user's (trimmed) message followed, in the order returned, by one bot message
for each fragment whose `text` is truthy, carrying that text; a fragment
whose `text` is falsy adds nothing, and at the first truthy text that has no
string conversion the connection-error message is shown instead and the
fragments after it are not. When the fragments carry the non-empty strings
`texts`, these are exactly as many bot messages as fragments, the i-th
carrying the i-th text. -/
theorem sendMessage_fragments (w : World) (p : Page) (status : Nat) (frags : List JVal)
    (hinput : jsTrim p.inputValue ≠ "")
    (hfetch : w.fetch "/chat" = .response status (some (.arr frags)))
    (hstatus : statusOk status = true) (hne : frags ≠ []) :
    (sendMessage w p).2 = .fulfilled ∧
    (sendMessage w p).1.chat =
      p.chat ++ ⟨"msg user", jsTrim p.inputValue⟩ :: fragmentMessages frags ∧
    (∀ texts : List String, (∀ t ∈ texts, t ≠ "") →
      frags.map (fun m => m.prop "text") = texts.map JVal.str →
      (sendMessage w p).1.chat =
        p.chat ++ ⟨"msg user", jsTrim p.inputValue⟩ ::
          texts.map fun t => ⟨"msg bot", t⟩) := by
  obtain ⟨m, rest, rfl⟩ := List.exists_cons_of_ne_nil hne
  have hchat : (sendMessage w p).1.chat =
      p.chat ++ ⟨"msg user", jsTrim p.inputValue⟩ :: fragmentMessages (m :: rest) := by
    rw [sendMessage_eq w p hinput]
    have htry : ∀ q, sendMessageTry w q = renderFragments (m :: rest) q := by
      intro q
      simp [sendMessageTry, hfetch, hstatus]
    simp only [htry]
    have := renderFragments_chat (m :: rest)
      (issue ⟨"POST", "/chat",
        some (.obj [("sender", match p.senderId with
          | none => .null
          | some s => .str s), ("message", .str (jsTrim p.inputValue))])⟩
        { p with
          chat := p.chat ++ [{ className := "msg user", text := jsTrim p.inputValue }],
          inputValue := "" })
    simp only [issue, List.append_assoc, List.singleton_append] at this ⊢
    rw [← this]
    split <;> rfl
  refine ⟨?_, hchat, ?_⟩
  · rw [sendMessage_eq w p hinput]
  · intro texts hnonempty htexts
    rw [hchat, fragmentMessages_of_texts _ texts hnonempty htexts]

/-- C2, at the specification's own example: the body
`[{text:"A"},{text:"B"}]`. -/
theorem sendMessage_fragments_witness :
    (sendMessage (World.always (.response 200 (some (.arr
        [.obj [("text", .str "A")], .obj [("text", .str "B")]]))))
      { Page.blank with inputValue := " hi " }).1.chat =
      [⟨"msg user", "hi"⟩, ⟨"msg bot", "A"⟩, ⟨"msg bot", "B"⟩] := by
  have h := (sendMessage_fragments
    (World.always (.response 200 (some (.arr
        [.obj [("text", .str "A")], .obj [("text", .str "B")]]))))
    { Page.blank with inputValue := " hi " } 200
    [.obj [("text", .str "A")], .obj [("text", .str "B")]]
    (by decide) rfl (by decide) (by simp)).2.2 ["A", "B"] (by decide) rfl
  rw [h]
  decide

/-- C2, counterexample. The success body has three fragments, the middle one
`{text:""}`: the transcript gets the user's message and two bot messages,
not three. -/
theorem sendMessage_blank_fragment_skipped :
    jsTrim ({ Page.blank with inputValue := "hi" } : Page).inputValue ≠ "" ∧
    fragmentsWithBlank.length = 3 ∧
    (sendMessage (World.always (.response 200 (some (.arr fragmentsWithBlank))))
      { Page.blank with inputValue := "hi" }).1.chat =
      [⟨"msg user", "hi"⟩, ⟨"msg bot", "A"⟩, ⟨"msg bot", "B"⟩] := by
  decide

/-- A success body whose middle fragment has the text `{"toString": 1}`:
the first fragment is shown, the conversion of the second throws, and the
connection-error message takes the place of the rest. -/
theorem sendMessage_unprintable_fragment :
    (sendMessage (World.always (.response 200 (some (.arr
        [.obj [("text", .str "A")], .obj [("text", unprintable)], .obj [("text", .str "B")]]))))
      { Page.blank with inputValue := "hi" }).1.chat =
      [⟨"msg user", "hi"⟩, ⟨"msg bot", "A"⟩,
        ⟨"msg bot", "Error connecting to backend (is Flask running on port 8000?)"⟩] := by
  decide

/-- C3. For a non-blank input, a success response whose body is the empty
array makes `sendMessage` append the user's message and then exactly one bot
message, "No response from bot.". -/
theorem sendMessage_empty_array (w : World) (p : Page) (status : Nat)
    (hinput : jsTrim p.inputValue ≠ "")
    (hfetch : w.fetch "/chat" = .response status (some (.arr [])))
    (hstatus : statusOk status = true) :
    (sendMessage w p).2 = .fulfilled ∧
    (sendMessage w p).1.chat =
      p.chat ++ [⟨"msg user", jsTrim p.inputValue⟩, ⟨"msg bot", "No response from bot."⟩] := by
  rw [sendMessage_eq w p hinput]
  simp [sendMessageTry, hfetch, hstatus, addMessage_str, issue]

/-- C3, at a concrete input: the text "hello" and a 200 with body `[]`. -/
theorem sendMessage_empty_array_witness :
    (sendMessage (World.always (.response 200 (some (.arr []))))
      { Page.blank with inputValue := "hello" }).1.chat =
      [⟨"msg user", "hello"⟩, ⟨"msg bot", "No response from bot."⟩] := by
  have h := (sendMessage_empty_array (World.always (.response 200 (some (.arr []))))
    { Page.blank with inputValue := "hello" } 200 (by decide) rfl (by decide)).2
  rw [h]
  decide

theorem chatErrorMsg_eq_spec (body : Option JVal) :
    (match chatErrorMsg (body.getD .null) with
      | some msg => msg
      | none => "Error connecting to backend (is Flask running on port 8000?)") =
      specChatFailureText body := by
  rcases body with _ | data
  · simp [chatErrorMsg, specChatFailureText, JVal.and, JVal.truthy]
  · simp only [Option.getD_some, chatErrorMsg, specChatFailureText]
    by_cases hd : data.truthy = true
    · by_cases he : (data.prop "error").truthy = true <;>
        by_cases hdet : (data.prop "details").truthy = true <;>
        rcases hes : (data.prop "error").toStr with _ | e <;>
        rcases hds : (data.prop "details").toStr with _ | d <;>
        simp [JVal.and, JVal.or, hd, he, hdet, String.append_assoc]
    · cases data <;> simp_all [JVal.truthy, JVal.prop, JVal.and]

/-- C10, as the code has it. For a non-blank input and a `/chat` response
with a non-success status, `sendMessage` completes and appends the user's
message and then exactly one bot message. Its text is "Chat request failed."
for an unparseable body or one with neither a truthy `error` nor a truthy
`details`; otherwise it is the string conversion of `error` followed by ": "
and the string conversion of the details when `details` is truthy, so that
a body with truthy details `d` and no `error` shows "undefined: " and `d`,
and string fields show as they are; and it is the connection-error text
when one of these conversions throws. -/
theorem sendMessage_failure_text (w : World) (p : Page) (status : Nat) (body : Option JVal)
    (hinput : jsTrim p.inputValue ≠ "")
    (hfetch : w.fetch "/chat" = .response status body)
    (hstatus : statusOk status = false) :
    (sendMessage w p).2 = .fulfilled ∧
    (sendMessage w p).1.chat =
      p.chat ++ [⟨"msg user", jsTrim p.inputValue⟩, ⟨"msg bot", specChatFailureText body⟩] ∧
    (∀ kvs d, body = some (.obj kvs) → JVal.lookup "error" kvs = .undefined →
      (JVal.lookup "details" kvs).truthy = true → (JVal.lookup "details" kvs).toStr = some d →
      (sendMessage w p).1.chat =
        p.chat ++ [⟨"msg user", jsTrim p.inputValue⟩, ⟨"msg bot", "undefined: " ++ d⟩]) ∧
    (∀ kvs e d, body = some (.obj kvs) → JVal.lookup "error" kvs = .str e →
      JVal.lookup "details" kvs = .str d → d ≠ "" →
      (sendMessage w p).1.chat =
        p.chat ++ [⟨"msg user", jsTrim p.inputValue⟩, ⟨"msg bot", e ++ ": " ++ d⟩]) ∧
    (∀ kvs e, body = some (.obj kvs) → JVal.lookup "error" kvs = .str e → e ≠ "" →
      (JVal.lookup "details" kvs).truthy = false →
      (sendMessage w p).1.chat =
        p.chat ++ [⟨"msg user", jsTrim p.inputValue⟩, ⟨"msg bot", e⟩]) := by
  have hchat : (sendMessage w p).1.chat =
      p.chat ++ [⟨"msg user", jsTrim p.inputValue⟩,
        ⟨"msg bot", specChatFailureText body⟩] := by
    rw [sendMessage_eq w p hinput, ← chatErrorMsg_eq_spec]
    rcases hmsg : chatErrorMsg (body.getD .null) with _ | msg <;>
      simp [sendMessageTry, hfetch, hstatus, hmsg, addMessage_str, issue]
  refine ⟨?_, hchat, ?_, ?_, ?_⟩
  · rw [sendMessage_eq w p hinput]
  · intro kvs d hb herr hdet hd
    subst hb
    rw [hchat]
    simp [specChatFailureText, JVal.prop, herr, hdet, hd, toStr_undefined, truthy_undefined,
      String.append_assoc]
  · intro kvs e d hb herr hdet hd
    subst hb
    have htd : (JVal.str d).truthy = true := by simp [JVal.truthy, hd]
    rw [hchat]
    simp [specChatFailureText, JVal.prop, herr, hdet, htd, toStr_str]
  · intro kvs e hb herr he hdet
    subst hb
    have hte : (JVal.str e).truthy = true := by simp [JVal.truthy, he]
    rw [hchat]
    simp [specChatFailureText, JVal.prop, herr, hdet, hte, toStr_str]

/-- C10, at a concrete input: a 500 whose body is `{"details": "boom"}`. -/
theorem sendMessage_failure_text_witness :
    (sendMessage (World.always (.response 500 (some (.obj [("details", .str "boom")]))))
      { Page.blank with inputValue := "hello" }).1.chat =
      [⟨"msg user", "hello"⟩, ⟨"msg bot", "undefined: boom"⟩] := by
  have h := (sendMessage_failure_text
    (World.always (.response 500 (some (.obj [("details", .str "boom")]))))
    { Page.blank with inputValue := "hello" } 500 _ (by decide) rfl (by decide)).2.2.1
    [("details", .str "boom")] "boom" rfl rfl rfl (by decide)
  rw [h]
  decide

/-- C10, counterexample. A 500 whose body is `{"error": {"toString": 1}}`:
the `error` field is truthy, so the text should be its string conversion,
but it has none; the concatenation on line 245 throws and the bot message
shown is the connection-error text. -/
theorem sendMessage_unprintable_error :
    statusOk 500 = false ∧
    (unprintable.truthy = true ∧ unprintable.toStr = none) ∧
    (sendMessage (World.always (.response 500 (some (.obj [("error", unprintable)]))))
      { Page.blank with inputValue := "hello" }).1.chat =
      [⟨"msg user", "hello"⟩,
        ⟨"msg bot", "Error connecting to backend (is Flask running on port 8000?)"⟩] := by
  decide

/-- A 500 whose body is `{"error": 1e21}`: the bot message carries the text
JavaScript prints for that number. -/
theorem sendMessage_large_number_error :
    (sendMessage (World.always (.response 500 (some (.obj
        [("error", .num ⟨"1e+21", true⟩)]))))
      { Page.blank with inputValue := "hello" }).1.chat =
      [⟨"msg user", "hello"⟩, ⟨"msg bot", "1e+21"⟩] := by
  decide

/-! ## Signup, and failures of the request -/

/-- C8. For a signup with a non-empty trimmed email and a non-empty
password, a `/signup` response with status 409 shows the error banner with
"Email already exists. Try logging in instead." whatever the body, hides the
success banner, and leaves the tabs, the panes and the login form fields as
they were. -/
theorem signupClick_conflict (w : World) (p : Page) (body : Option JVal)
    (hemail : jsTrim p.signupEmail ≠ "") (hpassword : p.signupPassword ≠ "")
    (hfetch : w.fetch "/signup" = .response 409 body) :
    (signupClick w p).2 = .fulfilled ∧
    (signupClick w p).1.errDisplay = "block" ∧
    (signupClick w p).1.errText = "Email already exists. Try logging in instead." ∧
    (signupClick w p).1.okDisplay = "none" ∧
    (signupClick w p).1.tabLoginActive = p.tabLoginActive ∧
    (signupClick w p).1.tabSignupActive = p.tabSignupActive ∧
    (signupClick w p).1.loginPaneDisplay = p.loginPaneDisplay ∧
    (signupClick w p).1.signupPaneDisplay = p.signupPaneDisplay ∧
    (signupClick w p).1.loginEmail = p.loginEmail ∧
    (signupClick w p).1.loginPassword = p.loginPassword := by
  have h409 : statusOk 409 = false := by decide
  have key : signupClick w p =
      ({ issue ⟨"POST", "/signup",
          some (.obj [("email", .str (jsTrim p.signupEmail)),
            ("password", .str p.signupPassword),
            ("full_name", .str (jsTrim p.signupName))])⟩ (clearAlerts p) with
          errText := "Email already exists. Try logging in instead.",
          errDisplay := "block", okDisplay := "none" }, .fulfilled) := by
    simp [signupClick, clearAlerts, hemail, hpassword, apiPost, hfetch, h409, showErr_str,
      settle, issue]
  rw [key]
  exact ⟨rfl, rfl, rfl, rfl, rfl, rfl, rfl, rfl, rfl, rfl⟩

/-- C8, at a concrete input: the filled-in form and a 409 whose body carries
its own error text. -/
theorem signupClick_conflict_witness :
    (signupClick (World.always (.response 409 (some (.obj [("error", .str "duplicate")]))))
        Page.filled).1.errText = "Email already exists. Try logging in instead." ∧
    (signupClick (World.always (.response 409 (some (.obj [("error", .str "duplicate")]))))
        Page.filled).1.loginEmail = Page.filled.loginEmail :=
  have h := signupClick_conflict
    (World.always (.response 409 (some (.obj [("error", .str "duplicate")]))))
    Page.filled _ (by decide) (by decide) rfl
  ⟨h.2.2.1, h.2.2.2.2.2.2.2.2.1⟩

/-- A rejected fetch in `sendMessage` is caught: the promise is fulfilled
and the connection-error message is appended to the transcript. -/
theorem sendMessage_unreachable (w : World) (p : Page)
    (hinput : jsTrim p.inputValue ≠ "") (hfetch : w.fetch "/chat" = .reject) :
    (sendMessage w p).2 = .fulfilled ∧
    (sendMessage w p).1.chat =
      p.chat ++ [⟨"msg user", jsTrim p.inputValue⟩,
        ⟨"msg bot", "Error connecting to backend (is Flask running on port 8000?)"⟩] := by
  rw [sendMessage_eq w p hinput]
  simp [sendMessageTry, hfetch, issue]

/-- C1, the code at the failing input. With the backend unreachable (every
fetch rejects) and the forms filled in, the login, signup and logout
handlers each end with a rejected promise, the error banner hidden and the
transcript untouched: the failure is not caught. -/
theorem authHandlers_unreachable :
    ((loginClick (World.always .reject) Page.filled).2 = .rejected ∧
      (loginClick (World.always .reject) Page.filled).1.errDisplay = "none" ∧
      (loginClick (World.always .reject) Page.filled).1.chat = Page.filled.chat) ∧
    ((signupClick (World.always .reject) Page.filled).2 = .rejected ∧
      (signupClick (World.always .reject) Page.filled).1.errDisplay = "none" ∧
      (signupClick (World.always .reject) Page.filled).1.chat = Page.filled.chat) ∧
    ((logoutClick (World.always .reject) Page.filled).2 = .rejected ∧
      (logoutClick (World.always .reject) Page.filled).1.errDisplay = "none" ∧
      (logoutClick (World.always .reject) Page.filled).1.chat = Page.filled.chat) := by
  decide

/-- With a 500 whose body is the JSON value `null`, reading `data.error`
throws and the login handler's promise rejects as well. -/
theorem loginClick_null_body :
    (loginClick (World.always (.response 500 (some .null))) Page.filled).2 = .rejected ∧
    (loginClick (World.always (.response 500 (some .null))) Page.filled).1.errDisplay =
      "none" := by
  decide

end Chatbot
